import Mathlib

/-!
Verification development for the LM Studio performance-testing harness
(`lm_studio_tester.py`).

The core under study is the class `LMStudioPerformanceTester`: the request
executor `single_inference_test`, the batch runner `batch_inference_test`,
the concurrency orchestrator `concurrent_inference_test`, the
duration-bounded runner `stress_test`, and the aggregator
`generate_performance_report`, all sharing the append-only result store
`metrics_history`.

Embedding conventions:
* Python floats are modelled as exact rationals (`ℚ`); JSON integers as `ℤ`.
* The outcome of one HTTP call (`requests.Session.post`) is an oracle value
  of type `HttpResult` supplied by a `CallEnv`: either a raised
  `requests.exceptions.RequestException` (which covers transport errors and
  timeouts) or a response with a status code and an optional `usage` object
  whose counters may individually be absent, mirroring
  `data.get('usage', {})` / `usage.get(..., 0)`.
* `self.metrics_history` is threaded explicitly: each operation takes the
  current history and returns the new one.
* `print` output is modelled as a list of emitted diagnostic strings.
* Thread scheduling in `concurrent_inference_test` is sequentialised: the
  per-worker call outcomes are an oracle list, and workers are folded in
  some completion order.  Claims about true interleaving atomicity are out
  of reach of this embedding and are treated separately.
-/

/-- The `PerformanceMetrics` dataclass of `lm_studio_tester.py`. -/
structure PerformanceMetrics where
  response_time : ℚ
  tokens_per_second : ℚ
  total_tokens : ℤ
  prompt_tokens : ℤ
  completion_tokens : ℤ
  memory_usage : ℚ
  cpu_usage : ℚ
  timestamp : String
deriving DecidableEq, Repr

instance : Inhabited PerformanceMetrics :=
  ⟨⟨0, 0, 0, 0, 0, 0, 0, ""⟩⟩

/-- The `usage` object of a chat-completion response body; each counter may
be absent, in which case `usage.get(key, 0)` in the source defaults it. -/
structure Usage where
  total_tokens : Option ℤ
  prompt_tokens : Option ℤ
  completion_tokens : Option ℤ
deriving DecidableEq, Repr

/-- Outcome of one `session.post` call: either a raised
`requests.exceptions.RequestException` (transport error, DNS failure or
timeout), or an HTTP response carrying a status code, an optional `usage`
object (`data.get('usage', {})` defaults a missing one), and the response
text used in the failure diagnostic. -/
inductive HttpResult where
  | exc (msg : String)
  | resp (status : Nat) (usage : Option Usage) (text : String)
deriving DecidableEq, Repr

/-- Environment for one invocation of `single_inference_test`: the HTTP
outcome plus the ambient wall-clock and host measurements the source reads
(`end_time - start_time`, `get_system_metrics` after the call,
`datetime.now().isoformat()`). -/
structure CallEnv where
  result : HttpResult
  response_time : ℚ
  memory_after : ℚ
  cpu_after : ℚ
  timestamp : String
deriving DecidableEq, Repr

/-- `single_inference_test` (lines 94–159): one inference call.  Returns the
Python return value (`Optional[PerformanceMetrics]`), the new
`metrics_history`, and the diagnostics printed.  On a 200 response it
extracts the usage counters with default 0, computes
`tokens_per_second = completion_tokens / response_time if response_time > 0
else 0`, constructs the metrics record, appends it to the history and
returns it; on a non-200 status or a `RequestException` it prints a
diagnostic, leaves the history alone and returns `None`. -/
def single_inference_test (env : CallEnv) (hist : List PerformanceMetrics) :
    Option PerformanceMetrics × List PerformanceMetrics × List String :=
  match env.result with
  | .exc msg => (none, hist, ["❌ 请求异常: " ++ msg])
  | .resp status usage txt =>
    if status = 200 then
      let u := usage.getD ⟨none, none, none⟩
      let total_tokens := u.total_tokens.getD 0
      let prompt_tokens := u.prompt_tokens.getD 0
      let completion_tokens := u.completion_tokens.getD 0
      let rt := env.response_time
      let tps : ℚ := if rt > 0 then (completion_tokens : ℚ) / rt else 0
      let metrics : PerformanceMetrics :=
        { response_time := rt
          tokens_per_second := tps
          total_tokens := total_tokens
          prompt_tokens := prompt_tokens
          completion_tokens := completion_tokens
          memory_usage := env.memory_after
          cpu_usage := env.cpu_after
          timestamp := env.timestamp }
      (some metrics, hist ++ [metrics], [])
    else
      (none, hist, ["❌ API请求失败: " ++ toString status ++ " - " ++ txt])

/-- `True` exactly when the call outcome is an HTTP 200 response, the only
case in which `single_inference_test` produces a sample. -/
def envSuccess (e : CallEnv) : Bool :=
  match e.result with
  | .resp status _ _ => status == 200
  | .exc _ => false

/-- On success the history is extended by exactly the returned sample. -/
theorem single_hist_extend (env : CallEnv) (hist : List PerformanceMetrics) :
    (single_inference_test env hist).2.1 =
      hist ++ (single_inference_test env hist).1.toList := by
  unfold single_inference_test
  cases h : env.result with
  | exc msg => simp
  | resp status usage txt =>
    by_cases hs : status = 200 <;> simp [hs]

/-- The returned option is `some` iff the call succeeded (HTTP 200). -/
theorem single_some_iff_success (env : CallEnv) (hist : List PerformanceMetrics) :
    (single_inference_test env hist).1.isSome = envSuccess env := by
  unfold single_inference_test envSuccess
  cases h : env.result with
  | exc msg => simp
  | resp status usage txt =>
    by_cases hs : status = 200 <;> simp [hs]

/-- Claim C1: every Metric Sample constructed by `single_inference_test` on
a transport-success response has `tokens_per_second =
completion_tokens / response_time` when `response_time > 0`, and
`tokens_per_second = 0` when `response_time = 0`.  (Modelled in exact
rational arithmetic, so "within floating-point tolerance" becomes exact
equality.) -/
theorem C1_tokens_per_second_invariant (env : CallEnv)
    (hist : List PerformanceMetrics) (m : PerformanceMetrics)
    (h : (single_inference_test env hist).1 = some m) :
    (m.response_time > 0 →
      m.tokens_per_second = (m.completion_tokens : ℚ) / m.response_time) ∧
    (m.response_time = 0 → m.tokens_per_second = 0) := by
  unfold single_inference_test at h
  cases hr : env.result with
  | exc msg => rw [hr] at h; simp at h
  | resp status usage txt =>
    rw [hr] at h
    by_cases hs : status = 200
    · simp only [hs, if_pos rfl] at h
      injection h with h
      subst h
      constructor
      · intro hpos
        simp only [if_pos hpos]
      · intro hzero
        simp only at hzero ⊢
        rw [hzero]
        simp
    · simp [hs] at h

def envC1 : CallEnv :=
  ⟨.resp 200 (some ⟨some 40, some 10, some 30⟩) "", 2, 100, 50, "t0"⟩

def mC1 : PerformanceMetrics := ⟨2, 15, 40, 10, 30, 100, 50, "t0"⟩

/-- Witness for C1 at a concrete successful call: response time 2s and 30
completion tokens give 15 tokens/second. -/
theorem C1_witness :
    (mC1.response_time > 0 →
      mC1.tokens_per_second = (mC1.completion_tokens : ℚ) / mC1.response_time) ∧
    (mC1.response_time = 0 → mC1.tokens_per_second = 0) :=
  C1_tokens_per_second_invariant envC1 [] mC1 (by
    simp [single_inference_test, envC1, mC1]
    norm_num)

/-- Claim C2: every failing invocation of `single_inference_test`
(`RequestException`, i.e. transport error or timeout, or a non-200 status)
leaves `metrics_history` unchanged, returns `None` through the normal
return path, and prints a diagnostic. -/
theorem C2_failure_leaves_store_unchanged (env : CallEnv)
    (hist : List PerformanceMetrics) (h : envSuccess env = false) :
    (single_inference_test env hist).1 = none ∧
    (single_inference_test env hist).2.1 = hist ∧
    (single_inference_test env hist).2.2 ≠ [] := by
  unfold envSuccess at h
  unfold single_inference_test
  cases hr : env.result with
  | exc msg => simp
  | resp status usage txt =>
    rw [hr] at h
    have hs : status ≠ 200 := by simpa using h
    simp [hs]

def envC2 : CallEnv := ⟨.exc "Connection refused", 0, 100, 50, "t0"⟩

/-- Witness for C2 at a concrete transport failure. -/
theorem C2_witness :
    (single_inference_test envC2 []).1 = none ∧
    (single_inference_test envC2 []).2.1 = [] ∧
    (single_inference_test envC2 []).2.2 ≠ [] :=
  C2_failure_leaves_store_unchanged envC2 [] (by decide)

/-- Claim C10: a 200 response whose body lacks the `usage` object, or whose
`usage` lacks `completion_tokens`, still yields a stored Metric Sample with
the missing counters defaulted to 0, hence `tokens_per_second = 0`. -/
theorem C10_missing_usage_defaults (env : CallEnv)
    (hist : List PerformanceMetrics) (u : Option Usage) (t : String)
    (hr : env.result = .resp 200 u t)
    (hu : u = none ∨ ∃ w, u = some w ∧ w.completion_tokens = none) :
    ∃ m, single_inference_test env hist = (some m, hist ++ [m], []) ∧
      m.completion_tokens = 0 ∧ m.tokens_per_second = 0 ∧
      (u = none → m.total_tokens = 0 ∧ m.prompt_tokens = 0) := by
  unfold single_inference_test
  rw [hr]
  simp only [if_pos rfl]
  refine ⟨_, rfl, ?_, ?_, ?_⟩
  · rcases hu with h | ⟨w, hw, hc⟩
    · subst h; rfl
    · subst hw; simp [hc]
  · have hc0 : ((u.getD ⟨none, none, none⟩).completion_tokens.getD 0) = 0 := by
      rcases hu with h | ⟨w, hw, hc⟩
      · subst h; rfl
      · subst hw; simp [hc]
    simp only [hc0]
    by_cases hp : env.response_time > 0 <;> simp [hp]
  · intro h
    subst h
    exact ⟨rfl, rfl⟩

def envC10 : CallEnv := ⟨.resp 200 none "", 2, 100, 50, "t0"⟩

/-- Witness for C10 at a concrete 200 response with no `usage` object. -/
theorem C10_witness :
    ∃ m, single_inference_test envC10 [] = (some m, [] ++ [m], []) ∧
      m.completion_tokens = 0 ∧ m.tokens_per_second = 0 ∧
      ((none : Option Usage) = none → m.total_tokens = 0 ∧ m.prompt_tokens = 0) :=
  C10_missing_usage_defaults envC10 [] none "" rfl (Or.inl rfl)

/-- `batch_inference_test` (lines 161–187): sequentially runs
`single_inference_test` once per prompt, collecting the successful samples
in order.  One `CallEnv` per prompt supplies the outcomes; the progress
prints and the 0.5s inter-request sleep do not affect the data flow and are
not modelled.  Returns the collected results and the new history. -/
def batch_inference_test (envs : List CallEnv) (hist : List PerformanceMetrics) :
    List PerformanceMetrics × List PerformanceMetrics :=
  match envs with
  | [] => ([], hist)
  | e :: rest =>
    let r := single_inference_test e hist
    let b := batch_inference_test rest r.2.1
    (r.1.toList ++ b.1, b.2)

/-- `concurrent_inference_test` (lines 189–227): fans out one
`single_inference_test` per worker thread against the shared history and
collects successful samples into `results`; the `join` loop waits for every
worker.  The embedding sequentialises the schedule: `envs` lists the worker
outcomes in completion order, and workers are folded in that order (the
claim about true interleaving atomicity is treated separately). -/
def concurrent_inference_test (envs : List CallEnv)
    (hist : List PerformanceMetrics) :
    List PerformanceMetrics × List PerformanceMetrics :=
  match envs with
  | [] => ([], hist)
  | e :: rest =>
    let r := single_inference_test e hist
    let c := concurrent_inference_test rest r.2.1
    (r.1.toList ++ c.1, c.2)

/-- Claim C7: the orchestrator joins all `num_concurrent = envs.length`
workers and returns exactly the successful subset: the result count `r`
equals the number of 200-responses among the workers, hence
`0 ≤ r ≤ num_concurrent`; a failing worker does not suppress the samples
of the others. -/
theorem C7_orchestrator_success_subset (envs : List CallEnv)
    (hist : List PerformanceMetrics) :
    (concurrent_inference_test envs hist).1.length =
      (envs.filter envSuccess).length ∧
    (concurrent_inference_test envs hist).1.length ≤ envs.length := by
  induction envs generalizing hist with
  | nil => simp [concurrent_inference_test]
  | cons e rest ih =>
    have hcount :
        (concurrent_inference_test (e :: rest) hist).1.length =
          (Option.toList (single_inference_test e hist).1).length +
            (concurrent_inference_test rest
              (single_inference_test e hist).2.1).1.length := by
      simp [concurrent_inference_test]
    have hsome := single_some_iff_success e hist
    constructor
    · rw [hcount, (ih _).1]
      cases hb : envSuccess e with
      | false =>
        rw [hb] at hsome
        have : (single_inference_test e hist).1 = none := by
          cases hx : (single_inference_test e hist).1 with
          | none => rfl
          | some v => rw [hx] at hsome; simp at hsome
        simp [this, List.filter, hb]
      | true =>
        rw [hb] at hsome
        cases hx : (single_inference_test e hist).1 with
        | none => rw [hx] at hsome; simp at hsome
        | some v => simp [hx, List.filter, hb]; omega
    · rw [hcount]
      have h1 : (Option.toList (single_inference_test e hist).1).length ≤ 1 := by
        cases (single_inference_test e hist).1 <;> simp
      have h2 := (ih ((single_inference_test e hist).2.1)).2
      simp only [List.length_cons]
      omega

/-- Oracle environment for `stress_test`: the outcome of the i-th request
(0-based) and the wall-clock time it consumes, covering the request itself
and loop overhead; the fixed 0.1s `time.sleep` is added separately by the
loop model. -/
structure StressEnv where
  calls : Nat → CallEnv
  callDuration : Nat → ℚ

/-- Loop state of `stress_test`: the local `results` list, the shared
`metrics_history`, the printed diagnostics, the wall-clock time elapsed
since `start_time`, and `request_count`. -/
structure StressState where
  results : List PerformanceMetrics
  hist : List PerformanceMetrics
  diags : List String
  elapsed : ℚ
  request_count : Nat
deriving DecidableEq, Repr

/-- The `while time.time() - start_time < duration_seconds` loop of
`stress_test` (lines 247–256).  The deadline is checked only at loop top,
between requests; each iteration increments `request_count`, runs one
`single_inference_test` to completion (never preempted), appends a sample
on success, and sleeps 0.1s.  `fuel` bounds the number of iterations the
model will unfold; `none` means the bound was hit before the deadline. -/
def stressLoop (env : StressEnv) (duration : ℚ) :
    Nat → StressState → Option StressState
  | 0, s => if s.elapsed < duration then none else some s
  | fuel + 1, s =>
    if s.elapsed < duration then
      let r := single_inference_test (env.calls s.request_count) s.hist
      stressLoop env duration fuel
        { results := s.results ++ r.1.toList
          hist := r.2.1
          diags := s.diags ++ r.2.2
          elapsed := s.elapsed + env.callDuration s.request_count + 1 / 10
          request_count := s.request_count + 1 }
    else some s

/-- Initial loop state: empty `results`, current shared history, zero
elapsed time, zero requests. -/
def initStress (hist : List PerformanceMetrics) : StressState :=
  ⟨[], hist, [], 0, 0⟩

/-- `stress_test` (lines 229–261): run the deadline loop, print the final
summary line (the only place `request_count` leaves the function), and
return `results`.  The triple is (Python return value, new
`metrics_history`, printed lines). -/
def stress_test (env : StressEnv) (duration : ℚ) (fuel : Nat)
    (hist : List PerformanceMetrics) :
    Option (List PerformanceMetrics × List PerformanceMetrics × List String) :=
  (stressLoop env duration fuel (initStress hist)).map (fun out =>
    (out.results, out.hist,
      out.diags ++
        ["✅ 压力测试完成 - 总耗时: " ++ toString out.elapsed ++
          "s, 总请求: " ++ toString out.request_count ++
          ", 成功: " ++ toString out.results.length]))

/-- A completed stress loop stopped because the deadline had passed. -/
theorem stressLoop_exit (env : StressEnv) (duration : ℚ) (fuel : Nat)
    (s out : StressState) (h : stressLoop env duration fuel s = some out) :
    ¬ out.elapsed < duration := by
  induction fuel generalizing s with
  | zero =>
    unfold stressLoop at h
    split at h
    · exact absurd h (by simp)
    · injection h with h
      subst h
      assumption
  | succ fuel ih =>
    unfold stressLoop at h
    split at h
    · exact ih _ h
    · injection h with h
      subst h
      assumption

/-- Each iteration adds one attempt and at most one sample, so the
`results ≤ attempts` inequality is preserved by the loop. -/
theorem stressLoop_count (env : StressEnv) (duration : ℚ) (fuel : Nat)
    (s out : StressState) (h : stressLoop env duration fuel s = some out)
    (hinv : s.results.length ≤ s.request_count) :
    out.results.length ≤ out.request_count := by
  induction fuel generalizing s with
  | zero =>
    unfold stressLoop at h
    split at h
    · exact absurd h (by simp)
    · injection h with h; subst h; exact hinv
  | succ fuel ih =>
    unfold stressLoop at h
    split at h
    · refine ih _ h ?_
      simp only [List.length_append]
      have h1 : ((single_inference_test (env.calls s.request_count)
          s.hist).1.toList).length ≤ 1 := by
        cases (single_inference_test (env.calls s.request_count) s.hist).1 <;> simp
      omega
    · injection h with h; subst h; exact hinv

/-- The loop only ever appends to the shared history. -/
theorem stressLoop_hist (env : StressEnv) (duration : ℚ) (fuel : Nat)
    (s out : StressState) (h : stressLoop env duration fuel s = some out) :
    ∃ t, out.hist = s.hist ++ t := by
  induction fuel generalizing s with
  | zero =>
    unfold stressLoop at h
    split at h
    · exact absurd h (by simp)
    · injection h with h; subst h; exact ⟨[], by simp⟩
  | succ fuel ih =>
    unfold stressLoop at h
    split at h
    · obtain ⟨t, ht⟩ := ih _ h
      refine ⟨(single_inference_test (env.calls s.request_count)
        s.hist).1.toList ++ t, ?_⟩
      rw [ht]
      simp [single_hist_extend]
    · injection h with h; subst h; exact ⟨[], by simp⟩

/-- Claim C8: whenever the stress loop of `stress_test` with duration `D`
terminates normally (the fuel bound was not hit), the deadline was found
passed at loop top — so the elapsed wall time is ≥ D, the in-flight
request having been allowed to finish — and the number of collected
samples never exceeds the number of requests attempted. -/
theorem C8_stress_deadline_between_requests (env : StressEnv) (D : ℚ)
    (fuel : Nat) (hist : List PerformanceMetrics) (out : StressState)
    (h : stressLoop env D fuel (initStress hist) = some out) :
    D ≤ out.elapsed ∧ out.results.length ≤ out.request_count :=
  ⟨le_of_not_lt (stressLoop_exit env D fuel _ out h),
   stressLoop_count env D fuel _ out h (by simp [initStress])⟩

def envS8 : CallEnv := ⟨.resp 200 none "", 0, 0, 0, "t"⟩

def mS8 : PerformanceMetrics := ⟨0, 0, 0, 0, 0, 0, 0, "t"⟩

def stressEnvC8 : StressEnv := ⟨fun _ => envS8, fun _ => 0⟩

def outC8 : StressState := ⟨[mS8, mS8], [mS8, mS8], [], 1 / 5, 2⟩

/-- Witness for C8: with deadline 0.15s and instantaneous successful calls
the loop runs twice (pacing 0.1s per iteration), stops at elapsed 0.2s ≥
0.15s, with 2 samples from 2 attempts. -/
theorem C8_witness : (3 : ℚ) / 20 ≤ outC8.elapsed ∧
    outC8.results.length ≤ outC8.request_count :=
  C8_stress_deadline_between_requests stressEnvC8 (3 / 20) 2 [] outC8 (by
    norm_num [stressLoop, initStress, stressEnvC8, envS8, outC8, mS8,
      single_inference_test])

/-- `statistics.mean`: arithmetic mean (callers guard against `[]`). -/
def listMean (xs : List ℚ) : ℚ := xs.sum / xs.length

/-- Python `min` over a nonempty list (0 as junk value on `[]`, never
reached: the report guards the empty history). -/
def listMin (xs : List ℚ) : ℚ :=
  match xs with
  | [] => 0
  | x :: r => r.foldl min x

/-- Python `max` over a nonempty list (0 as junk value on `[]`). -/
def listMax (xs : List ℚ) : ℚ :=
  match xs with
  | [] => 0
  | x :: r => r.foldl max x

/-- `statistics.median`: middle element of the sorted list for odd length,
average of the two middle elements for even length. -/
def listMedian (xs : List ℚ) : ℚ :=
  let s := xs.mergeSort (fun a b => a ≤ b)
  let n := xs.length
  if n % 2 = 1 then s.getD (n / 2) 0
  else (s.getD (n / 2 - 1) 0 + s.getD (n / 2) 0) / 2

/-- The sample variance `sum (x - mean)^2 / (n - 1)` underlying
`statistics.stdev` (which reports its square root). -/
def sampleVariance (xs : List ℚ) : ℚ :=
  (xs.map (fun x => (x - listMean xs) ^ 2)).sum / ((xs.length : ℚ) - 1)

/-- A value in the report.  `num q` is an exact numeric value (the source's
f-string rounding to fixed decimals and unit suffixes are presentation and
not modelled); `sqrtOf q` stands for the real square root of `q`, used only
for the `statistics.stdev` entries so that the development stays inside
computable rational arithmetic; `str s` is a literal string value. -/
inductive RVal where
  | num (q : ℚ)
  | sqrtOf (q : ℚ)
  | str (s : String)
deriving DecidableEq, Repr

/-- `generate_performance_report` (lines 263–308): the nested report dict,
modelled as an association list of sections, each a list of (key, value)
pairs in the source's order.  Empty history returns the error dict
`{"error": "没有性能数据"}`, modelled as `Except.error`. -/
def generate_performance_report (hist : List PerformanceMetrics) :
    Except String (List (String × List (String × RVal))) :=
  if hist.isEmpty then .error "没有性能数据"
  else
    let response_times := hist.map (·.response_time)
    let tps_list := hist.map (·.tokens_per_second)
    let memory_usage := hist.map (·.memory_usage)
    let cpu_usage := hist.map (·.cpu_usage)
    .ok
      [("测试概览",
        [("总请求数", .num hist.length),
         ("测试时间范围",
          .str ((hist.headD default).timestamp ++ " 到 " ++
            (hist.getLastD default).timestamp))]),
       ("响应时间统计",
        [("平均值", .num (listMean response_times)),
         ("中位数", .num (listMedian response_times)),
         ("最小值", .num (listMin response_times)),
         ("最大值", .num (listMax response_times)),
         ("标准差",
          if response_times.length > 1 then
            RVal.sqrtOf (sampleVariance response_times)
          else RVal.num 0)]),
       ("吞吐量统计",
        [("平均TPS", .num (listMean tps_list)),
         ("最大TPS", .num (listMax tps_list)),
         ("最小TPS", .num (listMin tps_list))]),
       ("系统资源",
        [("平均内存使用", .num (listMean memory_usage)),
         ("平均CPU使用率", .num (listMean cpu_usage)),
         ("最大内存使用", .num (listMax memory_usage)),
         ("最大CPU使用率", .num (listMax cpu_usage))]),
       ("Token统计",
        [("总生成Token数", .num ((hist.map (·.completion_tokens)).sum : ℤ)),
         ("平均每次生成Token数",
          .num (listMean (hist.map (fun m => (m.completion_tokens : ℚ))))),
         ("总处理Token数", .num ((hist.map (·.total_tokens)).sum : ℤ))])]

/-- Claim C6: the aggregator on an empty Result Store signals the
empty-input condition synchronously (the `{"error": ...}` dict), rather
than returning zeroed statistics or crashing. -/
theorem C6_empty_store_signals_error :
    generate_performance_report [] = Except.error "没有性能数据" := rfl

def mC3a : PerformanceMetrics := ⟨1, 10, 0, 0, 0, 0, 0, "ta"⟩

def mC3b : PerformanceMetrics := ⟨3, 20, 0, 0, 0, 0, 0, "tb"⟩

/-- The two-sample store of the spec's aggregator example:
`response_time` 1.0 and 3.0, `tokens_per_second` 10 and 20. -/
def histC3 : List PerformanceMetrics := [mC3a, mC3b]

/-- Counterexample to C3 as stated: on the spec's own two-sample store the
report's `tokens_per_second` section (`吞吐量统计`) carries exactly the
keys mean/max/min — it contains no median and no standard-deviation entry,
although the claim requires both for `tokens_per_second`. -/
theorem C3_counterexample :
    ∃ r sec, generate_performance_report histC3 = Except.ok r ∧
      r.lookup "吞吐量统计" = some sec ∧
      sec.map Prod.fst = ["平均TPS", "最大TPS", "最小TPS"] ∧
      ¬ "中位数" ∈ sec.map Prod.fst ∧
      ¬ "标准差" ∈ sec.map Prod.fst := by
  refine ⟨_, _, rfl, rfl, rfl, by decide, by decide⟩

/-- Claim C3, amended: for every non-empty Result Store the report contains
the five sections in order; for `response_time` the mean, median, minimum,
maximum and sample standard deviation (0 when fewer than 2 samples); for
`tokens_per_second` only the mean, maximum and minimum (no median, no
standard deviation); for memory and CPU usage the mean and maximum; for
completion tokens the sum and mean (plus the total-token sum); and the
first and last sample timestamps.  On the spec's two-sample example the
mean response time is 2, minimum 1, maximum 3, and the mean
tokens-per-second is 15. -/
theorem C3_report_contents :
    (∀ hist : List PerformanceMetrics, hist ≠ [] →
      ∃ r, generate_performance_report hist = Except.ok r ∧
        r.map Prod.fst =
          ["测试概览", "响应时间统计", "吞吐量统计", "系统资源", "Token统计"] ∧
        (r.lookup "响应时间统计").map (List.map Prod.fst) =
          some ["平均值", "中位数", "最小值", "最大值", "标准差"] ∧
        (r.lookup "吞吐量统计").map (List.map Prod.fst) =
          some ["平均TPS", "最大TPS", "最小TPS"] ∧
        (r.lookup "系统资源").map (List.map Prod.fst) =
          some ["平均内存使用", "平均CPU使用率", "最大内存使用", "最大CPU使用率"] ∧
        (r.lookup "Token统计").map (List.map Prod.fst) =
          some ["总生成Token数", "平均每次生成Token数", "总处理Token数"] ∧
        (r.lookup "测试概览").map (List.map Prod.fst) =
          some ["总请求数", "测试时间范围"] ∧
        (hist.length < 2 →
          ∃ sec, r.lookup "响应时间统计" = some sec ∧
            sec.lookup "标准差" = some (RVal.num 0))) ∧
    (∃ r sec tsec, generate_performance_report histC3 = Except.ok r ∧
      r.lookup "响应时间统计" = some sec ∧
      sec.lookup "平均值" = some (RVal.num 2) ∧
      sec.lookup "最小值" = some (RVal.num 1) ∧
      sec.lookup "最大值" = some (RVal.num 3) ∧
      r.lookup "吞吐量统计" = some tsec ∧
      tsec.lookup "平均TPS" = some (RVal.num 15)) := by
  constructor
  · intro hist h
    cases hist with
    | nil => exact absurd rfl h
    | cons a l =>
      refine ⟨_, rfl, rfl, rfl, rfl, rfl, rfl, rfl, ?_⟩
      intro hlen
      have hl : l = [] := by
        cases l with
        | nil => rfl
        | cons b t => simp at hlen; omega
      subst hl
      exact ⟨_, rfl, rfl⟩
  · refine ⟨_, _, _, rfl, rfl, ?_, ?_, ?_, rfl, ?_⟩ <;>
      norm_num [histC3, mC3a, mC3b, listMean, listMin, listMax, List.lookup] <;>
      rfl

/-- Witness for C3 (amended) at the one-sample store `[mC3a]`, where the
standard-deviation entry is 0. -/
theorem C3_witness :
    ∃ r, generate_performance_report [mC3a] = Except.ok r ∧
      r.map Prod.fst =
        ["测试概览", "响应时间统计", "吞吐量统计", "系统资源", "Token统计"] ∧
      (r.lookup "响应时间统计").map (List.map Prod.fst) =
        some ["平均值", "中位数", "最小值", "最大值", "标准差"] ∧
      (r.lookup "吞吐量统计").map (List.map Prod.fst) =
        some ["平均TPS", "最大TPS", "最小TPS"] ∧
      (r.lookup "系统资源").map (List.map Prod.fst) =
        some ["平均内存使用", "平均CPU使用率", "最大内存使用", "最大CPU使用率"] ∧
      (r.lookup "Token统计").map (List.map Prod.fst) =
        some ["总生成Token数", "平均每次生成Token数", "总处理Token数"] ∧
      (r.lookup "测试概览").map (List.map Prod.fst) =
        some ["总请求数", "测试时间范围"] ∧
      ([mC3a].length < 2 →
        ∃ sec, r.lookup "响应时间统计" = some sec ∧
          sec.lookup "标准差" = some (RVal.num 0)) :=
  C3_report_contents.1 [mC3a] (by simp)

def stressEnvC4A : StressEnv :=
  ⟨fun i => if i = 0 then envC2 else envS8, fun _ => 0⟩

def stressEnvC4B : StressEnv :=
  ⟨fun _ => envS8, fun i => if i = 0 then 1 / 10 else 0⟩

/-- Counterexample to C4 as stated: `stress_test` returns only `results`;
`request_count` is printed, not returned.  Two runs with the same deadline
(0.15s) — one with a failing first request and a successful second (2
attempts), one with a single slower successful request (1 attempt) — have
identical Python return values, so the total count of requests attempted
is not part of (and not recoverable from) the return value. -/
theorem C4_counterexample :
    (stress_test stressEnvC4A (3 / 20) 2 []).map (fun r => r.1) =
      (stress_test stressEnvC4B (3 / 20) 2 []).map (fun r => r.1) ∧
    (stressLoop stressEnvC4A (3 / 20) 2 (initStress [])).map
        (·.request_count) = some 2 ∧
    (stressLoop stressEnvC4B (3 / 20) 2 (initStress [])).map
        (·.request_count) = some 1 := by
  refine ⟨?_, ?_, ?_⟩ <;>
    norm_num [stress_test, stressLoop, initStress, stressEnvC4A, stressEnvC4B,
      envC2, envS8, single_inference_test]

/-- Claim C4, amended: a normally terminating `stress_test` returns exactly
the successfully collected samples (at most one per attempt); the total
count of requests attempted is not part of the return value — it is only
emitted to the reporting channel, in the final summary line. -/
theorem C4_stress_returns_samples (env : StressEnv) (D : ℚ) (fuel : Nat)
    (hist : List PerformanceMetrics) (out : StressState)
    (h : stressLoop env D fuel (initStress hist) = some out) :
    ∃ r, stress_test env D fuel hist = some r ∧
      r.1 = out.results ∧
      r.1.length ≤ out.request_count ∧
      r.2.2.getLastD "" =
        "✅ 压力测试完成 - 总耗时: " ++ toString out.elapsed ++
          "s, 总请求: " ++ toString out.request_count ++
          ", 成功: " ++ toString out.results.length := by
  have hst : stress_test env D fuel hist = some
      (out.results, out.hist,
        out.diags ++
          ["✅ 压力测试完成 - 总耗时: " ++ toString out.elapsed ++
            "s, 总请求: " ++ toString out.request_count ++
            ", 成功: " ++ toString out.results.length]) := by
    unfold stress_test
    rw [h]
    rfl
  refine ⟨_, hst, rfl, ?_, ?_⟩
  · exact stressLoop_count env D fuel _ out h (by simp [initStress])
  · simp

def outC4B : StressState := ⟨[mS8], [mS8], [], 1 / 5, 1⟩

/-- Witness for C4 (amended) on the single-attempt run `stressEnvC4B`. -/
theorem C4_witness :
    ∃ r, stress_test stressEnvC4B (3 / 20) 2 [] = some r ∧
      r.1 = outC4B.results ∧
      r.1.length ≤ outC4B.request_count ∧
      r.2.2.getLastD "" =
        "✅ 压力测试完成 - 总耗时: " ++ toString outC4B.elapsed ++
          "s, 总请求: " ++ toString outC4B.request_count ++
          ", 成功: " ++ toString outC4B.results.length :=
  C4_stress_returns_samples stressEnvC4B (3 / 20) 2 [] outC4B (by
    norm_num [stressLoop, initStress, stressEnvC4B, envS8, outC4B, mS8,
      single_inference_test])

/-- Claim C9: the Result Store is append-only.  Every operation that
touches `metrics_history` — `single_inference_test`, `batch_inference_test`,
`concurrent_inference_test` and the `stress_test` loop — either leaves it
unchanged or extends it at the end; nothing is reordered, removed or
overwritten.  The remaining core operations,
`generate_performance_report` and `save_detailed_results`, only read the
history: their embeddings take it as input and return no modified history
(mirroring the source, which never assigns to `self.metrics_history`
outside `append`). -/
theorem C9_result_store_append_only :
    (∀ env hist, ∃ s, (single_inference_test env hist).2.1 = hist ++ s) ∧
    (∀ envs hist, ∃ s, (batch_inference_test envs hist).2 = hist ++ s) ∧
    (∀ envs hist, ∃ s, (concurrent_inference_test envs hist).2 = hist ++ s) ∧
    (∀ env D fuel hist out,
      stressLoop env D fuel (initStress hist) = some out →
        ∃ s, out.hist = hist ++ s) := by
  have hsingle : ∀ env hist,
      ∃ s, (single_inference_test env hist).2.1 = hist ++ s :=
    fun env hist => ⟨_, single_hist_extend env hist⟩
  refine ⟨hsingle, ?_, ?_, ?_⟩
  · intro envs
    induction envs with
    | nil => intro hist; exact ⟨[], by simp [batch_inference_test]⟩
    | cons e rest ih =>
      intro hist
      obtain ⟨a, ha⟩ := hsingle e hist
      obtain ⟨t, ht⟩ := ih (single_inference_test e hist).2.1
      refine ⟨a ++ t, ?_⟩
      show (batch_inference_test (e :: rest) hist).2 = hist ++ (a ++ t)
      simp only [batch_inference_test]
      rw [ht, ha, List.append_assoc]
  · intro envs
    induction envs with
    | nil => intro hist; exact ⟨[], by simp [concurrent_inference_test]⟩
    | cons e rest ih =>
      intro hist
      obtain ⟨a, ha⟩ := hsingle e hist
      obtain ⟨t, ht⟩ := ih (single_inference_test e hist).2.1
      refine ⟨a ++ t, ?_⟩
      show (concurrent_inference_test (e :: rest) hist).2 = hist ++ (a ++ t)
      simp only [concurrent_inference_test]
      rw [ht, ha, List.append_assoc]
  · intro env D fuel hist out h
    simpa [initStress] using stressLoop_hist env D fuel _ out h

def stressEnvC9 : StressEnv := ⟨fun _ => envC2, fun _ => 0⟩

/-- Witness for C9's stress-loop conjunct on a zero-duration run. -/
theorem C9_witness : ∃ s, (initStress [mC1]).hist = [mC1] ++ s :=
  C9_result_store_append_only.2.2.2 stressEnvC9 0 0 [mC1] (initStress [mC1])
    (by norm_num [stressLoop, initStress])
